import Mathlib

/-!
Shallow embedding of the assessment engine of the medical pre-screening
application (`src/app.py`): the static clinical-rule catalog, the follow-up
question generator `generate_follow_up_questions`, and the condition
assessment function `assess_conditions`.

Modelling conventions:
* symptom identifiers are `String`s, exactly as in the source;
* Python lists become Lean `List`s; membership tests (`x in xs`) become
  `x ∈ xs`;
* the follow-up answer dictionary becomes an association list
  `List (String × String)` iterated in order, which is faithful to Python
  dict iteration (the engine only reads it through membership-style tests);
* Python floats are modelled as exact rationals `ℚ` (every literal in the
  engine is a two-decimal constant, and no claim depends on binary
  floating-point rounding);
* Python's stable `sort`/`sorted` with a key and `reverse=True` becomes
  Mathlib's stable `List.insertionSort` with the corresponding
  greater-or-equal relation;
* the optional `urgency` dictionary key becomes an `Option String` field,
  with `c.get('urgency') == 'high'` rendered as `c.urgency == some "high"`.
-/

namespace MedScreen

/-- Counts how many identifiers of `ids` occur in `all`: the embedding of the
recurring Python pattern `sum(1 for s in ids if s in all_symptoms)`. -/
def countIn (ids : List String) (all : List String) : Nat :=
  (ids.filter (fun s => all.contains s)).length

/-- One entry of a rule's `confirming` list in `CLINICAL_RULES`. -/
structure ConfirmingSymptom where
  id : String
  name : String
  weight : ℚ
deriving DecidableEq

/-- One rule of the `CLINICAL_RULES` catalog: primary symptom identifiers and
confirming symptom entries. -/
structure ClinicalRule where
  primary : List String
  confirming : List ConfirmingSymptom
deriving DecidableEq

/-- The `CLINICAL_RULES` dictionary of `src/app.py`, as an association list in
its insertion order: common_cold, influenza, gastroenteritis. -/
def CLINICAL_RULES : List (String × ClinicalRule) :=
  [("common_cold",
    { primary := ["s_98", "s_107", "s_1986", "s_1995"],
      confirming :=
        [{ id := "s_1989", name := "Cough", weight := 0.15 },
         { id := "s_305", name := "Nasal congestion", weight := 0.10 },
         { id := "s_1993", name := "Sneezing", weight := 0.08 }] }),
   ("influenza",
    { primary := ["s_21", "s_98", "s_107", "s_1998"],
      confirming :=
        [{ id := "s_1989", name := "Cough", weight := 0.12 },
         { id := "s_2001", name := "Chills", weight := 0.15 },
         { id := "s_1986", name := "Sore throat", weight := 0.08 }] }),
   ("gastroenteritis",
    { primary := ["s_1967", "s_1968", "s_1970"],
      confirming :=
        [{ id := "s_1969", name := "Vomiting", weight := 0.15 },
         { id := "s_98", name := "Fever", weight := 0.08 }] })]

/-- A follow-up question record as built by `generate_follow_up_questions`. -/
structure FollowUpQuestion where
  symptom_id : String
  question : String
  weight : ℚ
  condition : String
deriving DecidableEq

/-- The candidate-question phase of `generate_follow_up_questions`: for each
rule of `CLINICAL_RULES` (in order), if the number of its primary symptoms
present reaches `len(primary) * 0.6`, append one question per confirming
symptom not already selected. -/
def candidateQuestions (selected_symptoms : List String) : List FollowUpQuestion :=
  CLINICAL_RULES.flatMap (fun cr =>
    let matched_primary := countIn cr.2.primary selected_symptoms
    if (matched_primary : ℚ) ≥ (cr.2.primary.length : ℚ) * 0.6 then
      (cr.2.confirming.filter (fun confirm => ¬ confirm.id ∈ selected_symptoms)).map
        (fun confirm =>
          { symptom_id := confirm.id,
            question := "Do you also have " ++ confirm.name.toLower ++ "?",
            weight := confirm.weight,
            condition := cr.1 })
    else [])

/-- The deduplication loop of `generate_follow_up_questions`: keep the first
question for each symptom identifier, tracking the identifiers already seen. -/
def dedupLoop : List FollowUpQuestion → List String → List FollowUpQuestion
  | [], _ => []
  | q :: qs, seen =>
    if q.symptom_id ∈ seen then dedupLoop qs seen
    else q :: dedupLoop qs (q.symptom_id :: seen)

/-- Deduplicate candidate questions by symptom identifier, keeping first
occurrences (the `seen` / `unique_questions` loop of the source). -/
def dedupBySymptom (qs : List FollowUpQuestion) : List FollowUpQuestion :=
  dedupLoop qs []

/-- Ordering used by the final `sorted(..., key=lambda x: x['weight'],
reverse=True)`: `a` may come before `b` when its weight is at least `b`'s. -/
def weightGE (a b : FollowUpQuestion) : Prop := b.weight ≤ a.weight

instance : DecidableRel weightGE := fun a b =>
  inferInstanceAs (Decidable (b.weight ≤ a.weight))

instance : IsTotal FollowUpQuestion weightGE :=
  ⟨fun a b => le_total b.weight a.weight⟩

instance : IsTrans FollowUpQuestion weightGE :=
  ⟨fun _ _ _ hab hbc => le_trans hbc hab⟩

/-- The embedding of `generate_follow_up_questions` of `src/app.py`:
candidates, dedup by symptom id, stable sort by weight descending, first 5. -/
def generate_follow_up_questions (selected_symptoms : List String) :
    List FollowUpQuestion :=
  let questions := candidateQuestions selected_symptoms
  let unique_questions := dedupBySymptom questions
  (List.insertionSort weightGE unique_questions).take 5

/-- An assessed-condition record as built by `assess_conditions`. The
`urgency` field is `some "high"` exactly when the source dict carries the
`'urgency': 'high'` key. -/
structure Condition where
  id : String
  name : String
  common_name : String
  probability : ℚ
  icd10 : String
  urgency : Option String
  matched : Nat
deriving DecidableEq

/-- The common-cold block of `assess_conditions`: fires when at least 2 of
the four primary symptoms are present. -/
def coldBlock (all_symptoms : List String) : List Condition :=
  let cold_primary := countIn ["s_98", "s_107", "s_1986", "s_1995"] all_symptoms
  if cold_primary ≥ 2 then
    let prob : ℚ := 0.55 + cold_primary * 0.08
    let prob := if "s_1989" ∈ all_symptoms then prob + 0.15 else prob
    let prob := if "s_305" ∈ all_symptoms then prob + 0.10 else prob
    let prob := if "s_1993" ∈ all_symptoms then prob + 0.08 else prob
    [{ id := "c_430", name := "Upper respiratory tract infection",
       common_name := "Common cold", probability := min prob 0.95,
       icd10 := "J06.9", urgency := none,
       matched := countIn ["s_98", "s_107", "s_1986", "s_1995", "s_1989",
         "s_305", "s_1993"] all_symptoms }]
  else []

/-- The influenza block of `assess_conditions`. -/
def fluBlock (all_symptoms : List String) : List Condition :=
  let flu_primary := countIn ["s_21", "s_98", "s_107", "s_1998"] all_symptoms
  if flu_primary ≥ 2 then
    let prob : ℚ := 0.50 + flu_primary * 0.08
    let prob := if "s_1989" ∈ all_symptoms then prob + 0.12 else prob
    let prob := if "s_2001" ∈ all_symptoms then prob + 0.15 else prob
    let prob := if "s_1986" ∈ all_symptoms then prob + 0.08 else prob
    [{ id := "c_782", name := "Influenza", common_name := "Flu",
       probability := min prob 0.95, icd10 := "J11.1", urgency := none,
       matched := countIn ["s_21", "s_98", "s_107", "s_1998", "s_1989",
         "s_2001", "s_1986"] all_symptoms }]
  else []

/-- The gastroenteritis block of `assess_conditions`: fires when abdominal
pain or diarrhea is present. -/
def gastroBlock (all_symptoms : List String) : List Condition :=
  if "s_1967" ∈ all_symptoms ∨ "s_1970" ∈ all_symptoms then
    let prob : ℚ := 0.60
    let prob := if "s_1969" ∈ all_symptoms then prob + 0.15 else prob
    let prob := if "s_1968" ∈ all_symptoms then prob + 0.10 else prob
    let prob := if "s_98" ∈ all_symptoms then prob + 0.08 else prob
    [{ id := "c_531", name := "Gastroenteritis", common_name := "Stomach flu",
       probability := min prob 0.95, icd10 := "A09", urgency := none,
       matched := countIn ["s_1967", "s_1970", "s_1969", "s_1968", "s_98"]
         all_symptoms }]
  else []

/-- The coronary-disease block of `assess_conditions`: fires when chest pain
is present, carries the high urgency tag, and counts `s_102`, `s_1988` and
`s_15` for its `matched` field exactly as the source does. -/
def coronaryBlock (all_symptoms : List String) : List Condition :=
  if "s_102" ∈ all_symptoms then
    let prob : ℚ := 0.40
    let prob := if "s_1988" ∈ all_symptoms then prob + 0.20 else prob
    [{ id := "c_49", name := "Coronary artery disease",
       common_name := "Heart disease", probability := min prob 0.85,
       icd10 := "I25.1", urgency := some "high",
       matched := countIn ["s_102", "s_1988", "s_15"] all_symptoms }]
  else []

/-- The full fired-condition list built by the four independent appends of
`assess_conditions`, with the generic fallback when nothing fired. This is
the condition list before sorting and before truncation to the top 3. -/
def firedConditions (all_symptoms : List String) : List Condition :=
  let conditions :=
    coldBlock all_symptoms ++ fluBlock all_symptoms ++
      gastroBlock all_symptoms ++ coronaryBlock all_symptoms
  if conditions = [] then
    [{ id := "c_generic", name := "Non-specific symptoms",
       common_name := "General malaise", probability := 0.50,
       icd10 := "R53.81", urgency := none,
       matched := all_symptoms.length }]
  else conditions

/-- Ordering used by `conditions.sort(key=lambda x: x['probability'],
reverse=True)`: `a` may come before `b` when its probability is at least
`b`'s. -/
def probGE (a b : Condition) : Prop := b.probability ≤ a.probability

instance : DecidableRel probGE := fun a b =>
  inferInstanceAs (Decidable (b.probability ≤ a.probability))

instance : IsTotal Condition probGE :=
  ⟨fun a b => le_total b.probability a.probability⟩

instance : IsTrans Condition probGE :=
  ⟨fun _ _ _ hab hbc => le_trans hbc hab⟩

/-- The merge step of `assess_conditions`: start from a copy of the selected
symptoms and append every follow-up symptom answered exactly `"yes"` that is
not already present. -/
def effectiveSymptoms (symptoms : List String)
    (follow_up_data : List (String × String)) : List String :=
  follow_up_data.foldl
    (fun all_symptoms p =>
      if p.2 = "yes" ∧ ¬ p.1 ∈ all_symptoms then all_symptoms ++ [p.1]
      else all_symptoms)
    symptoms

/-- The triage decision of `assess_conditions`, returning the
`(triage, triage_desc)` pair set by the if/elif chain of the source.
`conditions` is the sorted, untruncated condition list. -/
def triageOf (all_symptoms : List String) (conditions : List Condition)
    (pain_severity : ℤ) (duration : String) (emergency : Bool) :
    String × String :=
  if emergency = true ∨ "s_102" ∈ all_symptoms then
    ("emergency", "Seek immediate medical attention")
  else if 8 ≤ pain_severity ∨ conditions.any (fun c => c.urgency == some "high") then
    ("consultation_24", "Consult a healthcare provider within 24 hours")
  else if duration = "More than a week" then
    ("consultation", "Schedule an appointment with your healthcare provider")
  else
    ("self_care", "Consider monitoring symptoms and rest")

/-- The result dictionary returned by `assess_conditions`. -/
structure AssessmentResult where
  conditions : List Condition
  triage : String
  triage_description : String
  all_symptoms : List String
deriving DecidableEq

/-- The embedding of `assess_conditions` of `src/app.py`: merge follow-up
answers, run the four scoring blocks plus fallback, sort by probability
descending (stable), decide triage over the untruncated sorted list, and
return the top 3 conditions. -/
def assess_conditions (symptoms : List String)
    (follow_up_data : List (String × String)) (pain_severity : ℤ)
    (duration : String) (emergency : Bool) : AssessmentResult :=
  let all_symptoms := effectiveSymptoms symptoms follow_up_data
  let conditions := List.insertionSort probGE (firedConditions all_symptoms)
  let t := triageOf all_symptoms conditions pain_severity duration emergency
  { conditions := conditions.take 3, triage := t.1, triage_description := t.2,
    all_symptoms := all_symptoms }

end MedScreen

namespace MedScreen

/-! Helper lemmas about the merge step, the scoring blocks and the triage
decision. -/

theorem mem_effectiveSymptoms (S : List String) (A : List (String × String)) (s : String) :
    s ∈ effectiveSymptoms S A ↔ s ∈ S ∨ (s, "yes") ∈ A := by
  induction A generalizing S with
  | nil => simp [effectiveSymptoms]
  | cons a A ih =>
    obtain ⟨a1, a2⟩ := a
    have step : effectiveSymptoms S ((a1, a2) :: A) =
        effectiveSymptoms (if a2 = "yes" ∧ ¬ a1 ∈ S then S ++ [a1] else S) A := rfl
    rw [step, ih]
    simp only [List.mem_cons, Prod.mk.injEq]
    split
    next hc =>
      obtain ⟨he, _⟩ := hc
      subst he
      simp only [List.mem_append, List.mem_singleton]
      constructor
      · rintro ((hs | rfl) | hA)
        · exact Or.inl hs
        · exact Or.inr (Or.inl ⟨rfl, trivial⟩)
        · exact Or.inr (Or.inr hA)
      · rintro (hs | (⟨rfl, _⟩ | hA))
        · exact Or.inl (Or.inl hs)
        · exact Or.inl (Or.inr rfl)
        · exact Or.inr hA
    next hc =>
      push_neg at hc
      constructor
      · rintro (hs | hA)
        · exact Or.inl hs
        · exact Or.inr (Or.inr hA)
      · rintro (hs | (⟨rfl, ha⟩ | hA))
        · exact Or.inl hs
        · exact Or.inl (hc ha.symm)
        · exact Or.inr hA

theorem mem_coldBlock {all : List String} {c : Condition} (h : c ∈ coldBlock all) :
    c.id = "c_430" ∧ c.urgency = none ∧ 0 ≤ c.probability ∧ c.probability ≤ 0.95 ∧
      c.matched = countIn ["s_98", "s_107", "s_1986", "s_1995", "s_1989", "s_305", "s_1993"] all ∧
      2 ≤ countIn ["s_98", "s_107", "s_1986", "s_1995"] all := by
  simp only [coldBlock] at h
  split at h
  next hfire =>
    simp only [List.mem_singleton] at h
    subst h
    refine ⟨rfl, rfl, ?_, ?_, rfl, hfire⟩
    · refine le_min ?_ (by norm_num)
      split_ifs <;> positivity
    · exact min_le_right _ _
  next => simp at h

theorem mem_fluBlock {all : List String} {c : Condition} (h : c ∈ fluBlock all) :
    c.id = "c_782" ∧ c.urgency = none ∧ 0 ≤ c.probability ∧ c.probability ≤ 0.95 ∧
      c.matched = countIn ["s_21", "s_98", "s_107", "s_1998", "s_1989", "s_2001", "s_1986"] all := by
  simp only [fluBlock] at h
  split at h
  next hfire =>
    simp only [List.mem_singleton] at h
    subst h
    refine ⟨rfl, rfl, ?_, ?_, rfl⟩
    · refine le_min ?_ (by norm_num)
      split_ifs <;> positivity
    · exact min_le_right _ _
  next => simp at h

theorem mem_gastroBlock {all : List String} {c : Condition} (h : c ∈ gastroBlock all) :
    c.id = "c_531" ∧ c.urgency = none ∧ 0 ≤ c.probability ∧ c.probability ≤ 0.95 ∧
      c.matched = countIn ["s_1967", "s_1970", "s_1969", "s_1968", "s_98"] all := by
  simp only [gastroBlock] at h
  split at h
  next hfire =>
    simp only [List.mem_singleton] at h
    subst h
    refine ⟨rfl, rfl, ?_, ?_, rfl⟩
    · refine le_min ?_ (by norm_num)
      split_ifs <;> positivity
    · exact min_le_right _ _
  next => simp at h

theorem mem_coronaryBlock {all : List String} {c : Condition} (h : c ∈ coronaryBlock all) :
    c.id = "c_49" ∧ c.urgency = some "high" ∧ 0 ≤ c.probability ∧ c.probability ≤ 0.85 ∧
      c.matched = countIn ["s_102", "s_1988", "s_15"] all ∧ "s_102" ∈ all := by
  simp only [coronaryBlock] at h
  split at h
  next hfire =>
    simp only [List.mem_singleton] at h
    subst h
    refine ⟨rfl, rfl, ?_, ?_, rfl, hfire⟩
    · refine le_min ?_ (by norm_num)
      split_ifs <;> positivity
    · exact min_le_right _ _
  next => simp at h

theorem mem_firedConditions {all : List String} {c : Condition}
    (h : c ∈ firedConditions all) :
    c ∈ coldBlock all ∨ c ∈ fluBlock all ∨ c ∈ gastroBlock all ∨
      c ∈ coronaryBlock all ∨
      (c.id = "c_generic" ∧ c.probability = 0.50 ∧ c.urgency = none) := by
  simp only [firedConditions] at h
  split at h
  next =>
    simp only [List.mem_singleton] at h
    subst h
    exact Or.inr (Or.inr (Or.inr (Or.inr ⟨rfl, rfl, rfl⟩)))
  next =>
    simp only [List.mem_append] at h
    tauto

theorem blocks_sub_fired {all : List String} {c : Condition}
    (hc : c ∈ coldBlock all ++ fluBlock all ++ gastroBlock all ++ coronaryBlock all) :
    c ∈ firedConditions all := by
  simp only [firedConditions]
  split
  next hnil => rw [hnil] at hc; simp at hc
  next => exact hc

end MedScreen

namespace MedScreen

theorem coldBlock_fires {all : List String}
    (h : 2 ≤ countIn ["s_98", "s_107", "s_1986", "s_1995"] all) :
    ∃ c ∈ coldBlock all, c.id = "c_430" := by
  simp only [coldBlock]
  rw [if_pos h]
  exact ⟨_, List.mem_singleton_self _, rfl⟩

theorem fired_c430_mem_cold {all : List String} {c : Condition}
    (hm : c ∈ firedConditions all) (hid : c.id = "c_430") : c ∈ coldBlock all := by
  rcases mem_firedConditions hm with h | h | h | h | h
  · exact h
  · exact absurd hid (by rw [(mem_fluBlock h).1]; decide)
  · exact absurd hid (by rw [(mem_gastroBlock h).1]; decide)
  · exact absurd hid (by rw [(mem_coronaryBlock h).1]; decide)
  · exact absurd hid (by rw [h.1]; decide)

theorem coldBlock_probability {all : List String} {c : Condition}
    (h : c ∈ coldBlock all) :
    c.probability = min 0.95
      (0.55 + 0.08 * (countIn ["s_98", "s_107", "s_1986", "s_1995"] all : ℚ)
        + (if "s_1989" ∈ all then 0.15 else 0)
        + (if "s_305" ∈ all then 0.10 else 0)
        + (if "s_1993" ∈ all then 0.08 else 0)) := by
  simp only [coldBlock] at h
  split at h
  next =>
    simp only [List.mem_singleton] at h
    subst h
    show min _ (0.95 : ℚ) = _
    rw [min_comm]
    congr 1
    split_ifs <;> ring
  next => simp at h

theorem no_high_of_no_chest_pain {all : List String} (h : ¬ "s_102" ∈ all) :
    ∀ c ∈ firedConditions all, ¬ c.urgency = some "high" := by
  intro c hc
  rcases mem_firedConditions hc with h1 | h1 | h1 | h1 | h1
  · rw [(mem_coldBlock h1).2.1]; simp
  · rw [(mem_fluBlock h1).2.1]; simp
  · rw [(mem_gastroBlock h1).2.1]; simp
  · exact absurd (mem_coronaryBlock h1).2.2.2.2.2 h
  · rw [h1.2.2]; simp

theorem assess_triage (S : List String) (A : List (String × String)) (p : ℤ)
    (d : String) (e : Bool) :
    (assess_conditions S A p d e).triage =
      (triageOf (effectiveSymptoms S A)
        (List.insertionSort probGE (firedConditions (effectiveSymptoms S A))) p d e).1 :=
  rfl

theorem triageOf_emergency {all : List String} {conds : List Condition} {p : ℤ}
    {d : String} {e : Bool} (h : e = true ∨ "s_102" ∈ all) :
    triageOf all conds p d e = ("emergency", "Seek immediate medical attention") := by
  unfold triageOf
  rw [if_pos h]

theorem triageOf_c24_iff {all : List String} {conds : List Condition} {p : ℤ}
    {d : String} {e : Bool} (h : ¬ (e = true ∨ "s_102" ∈ all)) :
    (triageOf all conds p d e).1 = "consultation_24" ↔
      (8 ≤ p ∨ conds.any (fun c => c.urgency == some "high") = true) := by
  unfold triageOf
  rw [if_neg h]
  by_cases h2 : 8 ≤ p ∨ conds.any (fun c => c.urgency == some "high") = true
  · rw [if_pos h2]
    exact iff_of_true rfl h2
  · rw [if_neg h2]
    refine iff_of_false ?_ h2
    by_cases h3 : d = "More than a week"
    · rw [if_pos h3]; decide
    · rw [if_neg h3]; decide

theorem triageOf_self_care {all : List String} {conds : List Condition} {p : ℤ}
    {d : String} {e : Bool} (h1 : ¬ (e = true ∨ "s_102" ∈ all))
    (h2 : ¬ (8 ≤ p ∨ conds.any (fun c => c.urgency == some "high") = true))
    (h3 : ¬ d = "More than a week") :
    triageOf all conds p d e = ("self_care", "Consider monitoring symptoms and rest") := by
  unfold triageOf
  rw [if_neg h1, if_neg h2, if_neg h3]

theorem any_high_iff {all : List String} :
    (List.insertionSort probGE (firedConditions all)).any
        (fun c => c.urgency == some "high") = true ↔
      ∃ c ∈ firedConditions all, c.urgency = some "high" := by
  rw [List.any_eq_true]
  constructor
  · rintro ⟨c, hc, hb⟩
    exact ⟨c, (List.mem_insertionSort probGE).mp hc, beq_iff_eq.mp hb⟩
  · rintro ⟨c, hc, hb⟩
    exact ⟨c, (List.mem_insertionSort probGE).mpr hc, beq_iff_eq.mpr hb⟩

theorem dedupLoop_sublist (qs : List FollowUpQuestion) (seen : List String) :
    List.Sublist (dedupLoop qs seen) qs := by
  induction qs generalizing seen with
  | nil => simp [dedupLoop]
  | cons q qs ih =>
    unfold dedupLoop
    split
    · exact (ih _).cons q
    · exact (ih _).cons₂ q

theorem dedupLoop_ids_nodup (qs : List FollowUpQuestion) (seen : List String) :
    ((dedupLoop qs seen).map (fun q => q.symptom_id)).Nodup ∧
      ∀ q ∈ dedupLoop qs seen, ¬ q.symptom_id ∈ seen := by
  induction qs generalizing seen with
  | nil => simp [dedupLoop]
  | cons q qs ih =>
    unfold dedupLoop
    split
    next hseen => exact ih seen
    next hseen =>
      obtain ⟨h1, h2⟩ := ih (q.symptom_id :: seen)
      refine ⟨?_, ?_⟩
      · simp only [List.map_cons, List.nodup_cons]
        refine ⟨?_, h1⟩
        intro hmem
        obtain ⟨p, hp, hpe⟩ := List.mem_map.mp hmem
        exact h2 p hp (hpe ▸ List.mem_cons_self _ _)
      · intro p hp
        rcases List.mem_cons.mp hp with rfl | hp'
        · exact hseen
        · exact fun hc => h2 p hp' (List.mem_cons_of_mem _ hc)

theorem mem_candidateQuestions {selected : List String} {q : FollowUpQuestion}
    (h : q ∈ candidateQuestions selected) : ¬ q.symptom_id ∈ selected := by
  simp only [candidateQuestions, List.mem_flatMap] at h
  obtain ⟨cr, _, hq⟩ := h
  split at hq
  · obtain ⟨confirm, hc, rfl⟩ := List.mem_map.mp hq
    have := (List.mem_filter.mp hc).2
    simpa using this
  · simp at hq

end MedScreen

namespace MedScreen

/-- C1: a symptom identifier appears in the result's effective symptom set
(`all_symptoms`) iff it was among the selected symptoms or its follow-up
answer is exactly `"yes"`; with an empty answer map the effective set equals
the selection. -/
theorem effective_symptom_set_iff (S : List String) (A : List (String × String))
    (p : ℤ) (d : String) (e : Bool) :
    (∀ s : String, s ∈ (assess_conditions S A p d e).all_symptoms ↔
      s ∈ S ∨ (s, "yes") ∈ A) ∧
    (assess_conditions S [] p d false).all_symptoms = S :=
  ⟨fun s => mem_effectiveSymptoms S A s, rfl⟩

/-- C2: if the emergency flag is true or chest pain (`s_102`) is in the
effective symptom set, the triage tier is `emergency`, regardless of pain
severity, duration or fired conditions; in particular selected = chest pain,
pain 9, duration "Less than 24 hours", emergency false yields `emergency`
and not `consultation_24`. -/
theorem emergency_triage_overrides :
    (∀ (S : List String) (A : List (String × String)) (p : ℤ) (d : String) (e : Bool),
      (e = true ∨ "s_102" ∈ (assess_conditions S A p d e).all_symptoms) →
      (assess_conditions S A p d e).triage = "emergency") ∧
    (assess_conditions ["s_102"] [] 9 "Less than 24 hours" false).triage = "emergency" ∧
    ¬ (assess_conditions ["s_102"] [] 9 "Less than 24 hours" false).triage = "consultation_24" := by
  have gen : ∀ (S : List String) (A : List (String × String)) (p : ℤ) (d : String) (e : Bool),
      (e = true ∨ "s_102" ∈ (assess_conditions S A p d e).all_symptoms) →
      (assess_conditions S A p d e).triage = "emergency" := by
    intro S A p d e h
    replace h : e = true ∨ "s_102" ∈ effectiveSymptoms S A := h
    rw [assess_triage, triageOf_emergency h]
  refine ⟨gen, ?_, ?_⟩
  · exact gen _ _ _ _ _ (Or.inr (by decide))
  · rw [gen _ _ _ _ _ (Or.inr (by decide))]
    decide

/-- Witness for C2: the general emergency-override branch applied at the
spec's own example, emergency flag true with pain severity 0. -/
theorem emergency_triage_overrides_witness :
    (assess_conditions [] [] 0 "Less than 24 hours" true).triage = "emergency" :=
  emergency_triage_overrides.1 [] [] 0 "Less than 24 hours" true (Or.inl rfl)

/-- C5: when the emergency branch does not apply, the triage tier is
`consultation_24` iff pain severity ≥ 8 or some condition of the full fired
list before truncation to the top 3 carries the high-urgency tag. -/
theorem consultation24_iff (S : List String) (A : List (String × String)) (p : ℤ)
    (d : String) (e : Bool)
    (h : ¬ (e = true ∨ "s_102" ∈ (assess_conditions S A p d e).all_symptoms)) :
    ((assess_conditions S A p d e).triage = "consultation_24" ↔
      (8 ≤ p ∨ ∃ c ∈ firedConditions (effectiveSymptoms S A), c.urgency = some "high")) := by
  replace h : ¬ (e = true ∨ "s_102" ∈ effectiveSymptoms S A) := h
  rw [assess_triage, triageOf_c24_iff h, any_high_iff]

/-- Witness for C5: with no symptoms, pain severity 9 and no emergency flag,
the tier is exactly `consultation_24`. -/
theorem consultation24_iff_witness :
    (assess_conditions [] [] 9 "" false).triage = "consultation_24" :=
  (consultation24_iff [] [] 9 "" false (by decide)).mpr (Or.inl (by decide))

/-- C9: the engine accepts any duration string and treats every value other
than exactly "More than a week" as not more than a week: when the emergency
and 24-hour branches do not apply, the tier is `self_care`, not
`consultation` and not a failure. -/
theorem unrecognized_duration_self_care (S : List String)
    (A : List (String × String)) (p : ℤ) (d : String) (e : Bool)
    (h1 : ¬ (e = true ∨ "s_102" ∈ (assess_conditions S A p d e).all_symptoms))
    (h2 : p < 8) (h3 : ¬ d = "More than a week") :
    (assess_conditions S A p d e).triage = "self_care" := by
  replace h1 : ¬ (e = true ∨ "s_102" ∈ effectiveSymptoms S A) := h1
  have hno : ¬ (8 ≤ p ∨
      (List.insertionSort probGE (firedConditions (effectiveSymptoms S A))).any
        (fun c => c.urgency == some "high") = true) := by
    rintro (hp | hany)
    · omega
    · have hch : ¬ "s_102" ∈ effectiveSymptoms S A := fun hx => h1 (Or.inr hx)
      obtain ⟨c, hc, hb⟩ := any_high_iff.mp hany
      exact no_high_of_no_chest_pain hch c hc hb
  rw [assess_triage, triageOf_self_care h1 hno h3]

/-- Witness for C9: an unrecognized duration string degrades to `self_care`. -/
theorem unrecognized_duration_self_care_witness :
    (assess_conditions [] [] 0 "someday" false).triage = "self_care" :=
  unrecognized_duration_self_care [] [] 0 "someday" false (by decide) (by decide)
    (by decide)

/-- C10: a fired condition carries the high-urgency tag only when the
coronary rule fired, which requires chest pain in the effective set; chest
pain already triggers the emergency branch, so any assessment with a fired
high-urgency condition gets tier `emergency` (the high-urgency disjunct of
the 24-hour branch never decides the tier on its own). -/
theorem high_urgency_forces_emergency :
    (∀ all : List String,
      (∃ c ∈ firedConditions all, c.urgency = some "high") → "s_102" ∈ all) ∧
    (∀ (S : List String) (A : List (String × String)) (p : ℤ) (d : String) (e : Bool),
      (∃ c ∈ firedConditions (effectiveSymptoms S A), c.urgency = some "high") →
      (assess_conditions S A p d e).triage = "emergency") := by
  have key : ∀ all : List String,
      (∃ c ∈ firedConditions all, c.urgency = some "high") → "s_102" ∈ all := by
    rintro all ⟨c, hc, hu⟩
    rcases mem_firedConditions hc with h | h | h | h | h
    · exact absurd hu (by rw [(mem_coldBlock h).2.1]; simp)
    · exact absurd hu (by rw [(mem_fluBlock h).2.1]; simp)
    · exact absurd hu (by rw [(mem_gastroBlock h).2.1]; simp)
    · exact (mem_coronaryBlock h).2.2.2.2.2
    · exact absurd hu (by rw [h.2.2]; simp)
  refine ⟨key, fun S A p d e hex => ?_⟩
  rw [assess_triage, triageOf_emergency (Or.inr (key _ hex))]

/-- Witness for C10: chest pain alone fires the high-urgency coronary
condition and the assessment's tier is `emergency`. -/
theorem high_urgency_forces_emergency_witness :
    (assess_conditions ["s_102"] [] 0 "" false).triage = "emergency" :=
  high_urgency_forces_emergency.2 ["s_102"] [] 0 "" false (by
    norm_num +decide [effectiveSymptoms, firedConditions, coldBlock, fluBlock,
      gastroBlock, coronaryBlock, countIn])

end MedScreen

namespace MedScreen

/-- Cap that the spec associates with each condition identifier: 0.85 for the
coronary condition `c_49`, the fallback's fixed 0.50 for `c_generic`, and
0.95 for the three infection rules. -/
def ruleCap (id : String) : ℚ :=
  if id = "c_49" then 0.85 else if id = "c_generic" then 0.50 else 0.95

/-- C8: every returned condition has probability in [0, cap] for its rule's
cap, and the returned condition list is sorted non-increasing by probability
with length at most 3. -/
theorem result_conditions_bounds (S : List String) (A : List (String × String))
    (p : ℤ) (d : String) (e : Bool) :
    (assess_conditions S A p d e).conditions.length ≤ 3 ∧
    List.Pairwise (fun a b => b.probability ≤ a.probability)
      (assess_conditions S A p d e).conditions ∧
    ∀ c ∈ (assess_conditions S A p d e).conditions,
      0 ≤ c.probability ∧ c.probability ≤ ruleCap c.id := by
  have hconds : (assess_conditions S A p d e).conditions =
      (List.insertionSort probGE (firedConditions (effectiveSymptoms S A))).take 3 := rfl
  rw [hconds]
  refine ⟨List.length_take_le _ _, ?_, ?_⟩
  · exact List.Pairwise.sublist (List.take_sublist _ _)
      (List.sorted_insertionSort probGE _)
  · intro c hc
    have hmem : c ∈ firedConditions (effectiveSymptoms S A) :=
      (List.mem_insertionSort probGE).mp ((List.take_sublist _ _).subset hc)
    rcases mem_firedConditions hmem with h | h | h | h | h
    · obtain ⟨hid, _, h0, h95, _⟩ := mem_coldBlock h
      rw [hid]
      refine ⟨h0, ?_⟩
      have : ruleCap "c_430" = 0.95 := by norm_num +decide [ruleCap]
      rw [this]; exact h95
    · obtain ⟨hid, _, h0, h95, _⟩ := mem_fluBlock h
      rw [hid]
      refine ⟨h0, ?_⟩
      have : ruleCap "c_782" = 0.95 := by norm_num +decide [ruleCap]
      rw [this]; exact h95
    · obtain ⟨hid, _, h0, h95, _⟩ := mem_gastroBlock h
      rw [hid]
      refine ⟨h0, ?_⟩
      have : ruleCap "c_531" = 0.95 := by norm_num +decide [ruleCap]
      rw [this]; exact h95
    · obtain ⟨hid, _, h0, h85, _⟩ := mem_coronaryBlock h
      rw [hid]
      refine ⟨h0, ?_⟩
      have : ruleCap "c_49" = 0.85 := by norm_num +decide [ruleCap]
      rw [this]; exact h85
    · obtain ⟨hid, hp, _⟩ := h
      rw [hid, hp]
      have : ruleCap "c_generic" = 0.50 := by norm_num +decide [ruleCap]
      rw [this]
      norm_num

/-- C3 counterexample: with effective set = chest pain and dizziness, the
coronary rule fires with `matched` = 2, while only 1 member of the set
named by the claim — chest pain plus shortness of breath — is present: the
code also counts dizziness (`s_15`). -/
theorem coronary_matched_counterexample :
    ∃ c ∈ (assess_conditions ["s_102", "s_15"] [] 0 "" false).conditions,
      c.id = "c_49" ∧ c.matched = 2 ∧
        countIn ["s_102", "s_1988"] ["s_102", "s_15"] = 1 := by
  norm_num +decide [assess_conditions, effectiveSymptoms, firedConditions, coldBlock,
    fluBlock, gastroBlock, coronaryBlock, countIn, probGE, triageOf]

/-- C3 (amended): for every fired scoring rule, `matched` counts how many
symptoms of that rule's counting set are present in the effective set; the
counting set is primary plus bonus symptoms for the upper-respiratory,
influenza and gastroenteritis rules, while for the coronary rule it is
chest pain, shortness of breath and additionally dizziness (`s_15`). -/
theorem matched_counts (all : List String) (c : Condition)
    (h : c ∈ firedConditions all) :
    (c.id = "c_430" →
      c.matched = countIn ["s_98", "s_107", "s_1986", "s_1995", "s_1989", "s_305", "s_1993"] all) ∧
    (c.id = "c_782" →
      c.matched = countIn ["s_21", "s_98", "s_107", "s_1998", "s_1989", "s_2001", "s_1986"] all) ∧
    (c.id = "c_531" →
      c.matched = countIn ["s_1967", "s_1970", "s_1969", "s_1968", "s_98"] all) ∧
    (c.id = "c_49" →
      c.matched = countIn ["s_102", "s_1988", "s_15"] all) := by
  rcases mem_firedConditions h with hb | hb | hb | hb | hb
  · obtain ⟨hid, _, _, _, hm, _⟩ := mem_coldBlock hb
    refine ⟨fun _ => hm, ?_, ?_, ?_⟩ <;>
      exact fun hx => absurd hx (by rw [hid]; decide)
  · obtain ⟨hid, _, _, _, hm⟩ := mem_fluBlock hb
    refine ⟨?_, fun _ => hm, ?_, ?_⟩ <;>
      exact fun hx => absurd hx (by rw [hid]; decide)
  · obtain ⟨hid, _, _, _, hm⟩ := mem_gastroBlock hb
    refine ⟨?_, ?_, fun _ => hm, ?_⟩ <;>
      exact fun hx => absurd hx (by rw [hid]; decide)
  · obtain ⟨hid, _, _, _, hm, _⟩ := mem_coronaryBlock hb
    refine ⟨?_, ?_, ?_, fun _ => hm⟩ <;>
      exact fun hx => absurd hx (by rw [hid]; decide)
  · obtain ⟨hid, _, _⟩ := hb
    refine ⟨?_, ?_, ?_, ?_⟩ <;>
      exact fun hx => absurd hx (by rw [hid]; decide)

/-- Witness for C3 (amended): the coronary condition fired on chest pain
plus dizziness has `matched` equal to the count over its three-element
counting set. -/
theorem matched_counts_witness :
    (⟨"c_49", "Coronary artery disease", "Heart disease", 0.40, "I25.1",
        some "high", 2⟩ : Condition).matched =
      countIn ["s_102", "s_1988", "s_15"] ["s_102", "s_15"] := by
  have hm : (⟨"c_49", "Coronary artery disease", "Heart disease", 0.40, "I25.1",
      some "high", 2⟩ : Condition) ∈ firedConditions ["s_102", "s_15"] := by
    norm_num +decide [firedConditions, coldBlock, fluBlock, gastroBlock,
      coronaryBlock, countIn]
  exact (matched_counts ["s_102", "s_15"]
    ⟨"c_49", "Coronary artery disease", "Heart disease", 0.40, "I25.1",
      some "high", 2⟩ hm).2.2.2 rfl

end MedScreen

namespace MedScreen

/-- C4: the upper-respiratory rule fires iff at least 2 of fever, fatigue,
sore throat, runny nose are in the effective set, its probability is
min(0.95, 0.55 + 0.08 × count of those four + 0.15 for cough + 0.10 for
nasal congestion + 0.08 for sneezing), and the end-to-end scenario with
exactly those four selected, pain 3, duration "1-3 days", no emergency,
yields probability 0.87 and tier `self_care`. -/
theorem upper_respiratory_rule :
    (∀ all : List String,
      ((∃ c ∈ firedConditions all, c.id = "c_430") ↔
        2 ≤ countIn ["s_98", "s_107", "s_1986", "s_1995"] all)) ∧
    (∀ (all : List String) (c : Condition), c ∈ firedConditions all →
      c.id = "c_430" →
      c.probability = min 0.95
        (0.55 + 0.08 * (countIn ["s_98", "s_107", "s_1986", "s_1995"] all : ℚ)
          + (if "s_1989" ∈ all then 0.15 else 0)
          + (if "s_305" ∈ all then 0.10 else 0)
          + (if "s_1993" ∈ all then 0.08 else 0))) ∧
    (∃ c ∈ (assess_conditions ["s_98", "s_107", "s_1986", "s_1995"] [] 3
        "1-3 days" false).conditions,
      c.id = "c_430" ∧ c.probability = 0.87) ∧
    (assess_conditions ["s_98", "s_107", "s_1986", "s_1995"] [] 3 "1-3 days"
      false).triage = "self_care" := by
  refine ⟨?_, ?_, ?_, ?_⟩
  · intro all
    constructor
    · rintro ⟨c, hc, hid⟩
      exact (mem_coldBlock (fired_c430_mem_cold hc hid)).2.2.2.2.2
    · intro hfire
      obtain ⟨c, hc, hid⟩ := coldBlock_fires hfire
      refine ⟨c, blocks_sub_fired ?_, hid⟩
      simp only [List.mem_append]
      exact Or.inl (Or.inl (Or.inl hc))
  · intro all c hc hid
    exact coldBlock_probability (fired_c430_mem_cold hc hid)
  · norm_num +decide [assess_conditions, effectiveSymptoms, firedConditions,
      coldBlock, fluBlock, gastroBlock, coronaryBlock, countIn, probGE, triageOf]
  · norm_num +decide [assess_conditions, effectiveSymptoms, firedConditions,
      coldBlock, fluBlock, gastroBlock, coronaryBlock, countIn, probGE, triageOf]

/-- Witness for C4: with fever and fatigue present the firing criterion holds
and the rule indeed fires. -/
theorem upper_respiratory_rule_witness :
    2 ≤ countIn ["s_98", "s_107", "s_1986", "s_1995"] ["s_98", "s_107"] ∧
    (∃ c ∈ firedConditions ["s_98", "s_107"], c.id = "c_430") :=
  ⟨by decide, (upper_respiratory_rule.1 ["s_98", "s_107"]).mpr (by decide)⟩

end MedScreen

namespace MedScreen

/-- C7: the follow-up question list never exceeds 5 questions, never probes a
symptom already selected, and never repeats a symptom identifier. -/
theorem follow_up_invariants (selected : List String) :
    (generate_follow_up_questions selected).length ≤ 5 ∧
    (∀ q ∈ generate_follow_up_questions selected, ¬ q.symptom_id ∈ selected) ∧
    ((generate_follow_up_questions selected).map (fun q => q.symptom_id)).Nodup := by
  have hgen : generate_follow_up_questions selected =
      (List.insertionSort weightGE (dedupBySymptom (candidateQuestions selected))).take 5 :=
    rfl
  rw [hgen]
  refine ⟨List.length_take_le _ _, ?_, ?_⟩
  · intro q hq
    have h1 : q ∈ List.insertionSort weightGE (dedupBySymptom (candidateQuestions selected)) :=
      (List.take_sublist _ _).subset hq
    have h2 : q ∈ dedupBySymptom (candidateQuestions selected) :=
      (List.mem_insertionSort weightGE).mp h1
    have h3 : q ∈ candidateQuestions selected :=
      (dedupLoop_sublist _ _).subset h2
    exact mem_candidateQuestions h3
  · have hd : ((dedupBySymptom (candidateQuestions selected)).map
        (fun q => q.symptom_id)).Nodup :=
      (dedupLoop_ids_nodup (candidateQuestions selected) []).1
    have hperm : List.Perm
        ((List.insertionSort weightGE (dedupBySymptom (candidateQuestions selected))).map
          (fun q => q.symptom_id))
        ((dedupBySymptom (candidateQuestions selected)).map (fun q => q.symptom_id)) :=
      (List.perm_insertionSort weightGE _).map _
    have hs : ((List.insertionSort weightGE
        (dedupBySymptom (candidateQuestions selected))).map
          (fun q => q.symptom_id)).Nodup := hperm.nodup_iff.mpr hd
    rw [List.map_take]
    exact hs.sublist (List.take_sublist _ _)

/-- Modelled on the spec text of §4.2 word for word: a rule contributes one
candidate per confirming symptom not already selected when the fraction of
its primary symptoms present in the input set is at least 0.6; candidates
are deduplicated by symptom identifier keeping the first occurrence in the
fixed rule order (common_cold, influenza, gastroenteritis), stably sorted by
weight descending and truncated to the first 5. It differs from the code's
`generate_follow_up_questions` only in phrasing the gate as a fraction. -/
def follow_up_questions_spec (selected_symptoms : List String) :
    List FollowUpQuestion :=
  let questions := CLINICAL_RULES.flatMap (fun cr =>
    let matched_primary := countIn cr.2.primary selected_symptoms
    if (matched_primary : ℚ) / (cr.2.primary.length : ℚ) ≥ 0.6 then
      (cr.2.confirming.filter (fun confirm => ¬ confirm.id ∈ selected_symptoms)).map
        (fun confirm =>
          { symptom_id := confirm.id,
            question := "Do you also have " ++ confirm.name.toLower ++ "?",
            weight := confirm.weight,
            condition := cr.1 })
    else [])
  (List.insertionSort weightGE (dedupBySymptom questions)).take 5

/-- C6: the code's follow-up generator agrees with the spec-worded pipeline
on every input: same candidates (the integer threshold `matched ≥ len * 0.6`
is the fraction criterion), same first-occurrence dedup in rule order, same
stable sort by weight descending, same truncation to 5. -/
theorem follow_up_matches_spec (selected : List String) :
    generate_follow_up_questions selected = follow_up_questions_spec selected := by
  have gate : ∀ (n : ℕ) (q : ℚ), 0 < q →
      (((n : ℚ) ≥ q * 0.6) ↔ ((n : ℚ) / q ≥ 0.6)) := by
    intro n q hq
    rw [ge_iff_le, ge_iff_le, le_div_iff₀ hq]
    constructor <;> intro h <;> linarith
  have g1 := gate (countIn ["s_98", "s_107", "s_1986", "s_1995"] selected)
    ((["s_98", "s_107", "s_1986", "s_1995"] : List String).length : ℚ) (by norm_num)
  have g2 := gate (countIn ["s_21", "s_98", "s_107", "s_1998"] selected)
    ((["s_21", "s_98", "s_107", "s_1998"] : List String).length : ℚ) (by norm_num)
  have g3 := gate (countIn ["s_1967", "s_1968", "s_1970"] selected)
    ((["s_1967", "s_1968", "s_1970"] : List String).length : ℚ) (by norm_num)
  show (List.insertionSort weightGE (dedupBySymptom (candidateQuestions selected))).take 5 = _
  unfold follow_up_questions_spec
  congr 3
  unfold candidateQuestions
  simp only [CLINICAL_RULES, List.flatMap_cons, List.flatMap_nil, List.append_nil]
  simp only [g1, g2, g3]

end MedScreen
